import Mathlib

/-!
Verification of the scenario dispatch Runtime (`src/scenario/runtime.py`):
a shallow embedding of the consistency checker, the virtual charm root,
the environment builder, the event-store bridge (prime/drain) and the
`Runtime.exec` orchestrator, together with theorems settling the spec claims.
-/

namespace Scenario

/-- A single-quote character, used when rendering Python `repr` strings. -/
def sq : String := String.mk [Char.ofNat 39]

/-- Shallow model of the Python values that can appear in `state.config`
entries and in deferred-event / stored-state payloads. `vobj` stands for an
arbitrary non-primitive object (not serializable by `marshal`). -/
inductive PyV : Type
  | vnone : PyV
  | vbool : Bool → PyV
  | vint : Int → PyV
  | vfloat : Int → PyV
  | vstr : String → PyV
  | vlist : List PyV → PyV
  | vdict : List (String × PyV) → PyV
  | vobj : String → PyV

/-- Python `isinstance(v, str)`. -/
def isinstStr : PyV → Bool
  | .vstr _ => true
  | _ => false

/-- Python `isinstance(v, int)`: `bool` is a subclass of `int`. -/
def isinstInt : PyV → Bool
  | .vint _ => true
  | .vbool _ => true
  | _ => false

/-- Python `isinstance(v, float)`. -/
def isinstFloat : PyV → Bool
  | .vfloat _ => true
  | _ => false

/-- Python `isinstance(v, bool)`. -/
def isinstBool : PyV → Bool
  | .vbool _ => true
  | _ => false

/-- Python `str(type(v))`, as used in the config-check diagnostics. -/
def pyTypeName : PyV → String
  | .vnone => "<class " ++ sq ++ "NoneType" ++ sq ++ ">"
  | .vbool _ => "<class " ++ sq ++ "bool" ++ sq ++ ">"
  | .vint _ => "<class " ++ sq ++ "int" ++ sq ++ ">"
  | .vfloat _ => "<class " ++ sq ++ "float" ++ sq ++ ">"
  | .vstr _ => "<class " ++ sq ++ "str" ++ sq ++ ">"
  | .vlist _ => "<class " ++ sq ++ "list" ++ sq ++ ">"
  | .vdict _ => "<class " ++ sq ++ "dict" ++ sq ++ ">"
  | .vobj t => "<class " ++ sq ++ t ++ sq ++ ">"

mutual

/-- Whether `marshal.dumps` accepts the value (simple types only; an opaque
object raises `ValueError`). -/
def marshalable : PyV → Bool
  | .vobj _ => false
  | .vlist xs => marshalableList xs
  | .vdict xs => marshalableDict xs
  | _ => true

/-- `marshalable` over the elements of a list payload. -/
def marshalableList : List PyV → Bool
  | [] => true
  | x :: xs => marshalable x && marshalableList xs

/-- `marshalable` over the values of a dict payload. -/
def marshalableDict : List (String × PyV) → Bool
  | [] => true
  | kv :: xs => marshalable kv.2 && marshalableDict xs

end

/-- Python `s.startswith(pre)`. -/
def pyStartswith (s pre : String) : Bool :=
  List.isPrefixOf pre.toList s.toList

/-- Python `s.endswith(suf)`. -/
def pyEndswith (s suf : String) : Bool :=
  List.isSuffixOf suf.toList s.toList

/-- Character-wise `s.replace(a, b)` for single characters. -/
def replaceChar (a b : Char) (s : String) : String :=
  String.mk (s.toList.map fun c => if c = a then b else c)

/-- Split a character list on `/` (like Python `"x/y".split("/")`). -/
def splitSlash : List Char → List (List Char)
  | [] => [[]]
  | c :: rest =>
    let r := splitSlash rest
    if c = '/' then [] :: r
    else
      match r with
      | s :: ss => (c :: s) :: ss
      | [] => [[c]]

/-- Matches the final segment of the ops event-notice pattern:
`[a-zA-Z_]+\[\d+\]`, anchored on both ends of the segment. -/
def eventSegMatch (cs : List Char) : Bool :=
  let w := cs.takeWhile fun c => c.isAlpha || c = '_'
  match cs.drop w.length with
  | '[' :: rest2 =>
    let d := rest2.takeWhile Char.isDigit
    decide (w ≠ []) && decide (d ≠ []) && rest2.drop d.length == [']']
  | _ => false

/-- Modelled from the spec: the event-notice pattern used to classify handle
paths on drain (the framework regex, anchored: an optional prefix ending in a
slash, then an `on` segment, then `word[digits]`). `ops.framework` itself is
not part of the sources under verification. -/
def eventRegexMatchL (cs : List Char) : Bool :=
  match (splitSlash cs).reverse with
  | lastSeg :: onSeg :: _ => onSeg == ['o', 'n'] && eventSegMatch lastSeg
  | _ => false

/-- `eventRegexMatchL` on a string. -/
def eventRegexMatch (s : String) : Bool :=
  eventRegexMatchL s.toList

/-- The prefix of `cs` that stands before the last `]` of `cs`, if any
(the greedy `(.*)\]` of the stored-state pattern). -/
def beforeLastRBracket : List Char → Option (List Char)
  | [] => none
  | c :: rest =>
    match beforeLastRBracket rest with
    | some p => some (c :: p)
    | none => if c = ']' then some [] else none

/-- Backtracking for the `\D+\[(.*)\]` tail of the stored-state pattern:
try a non-digit run of length `k`, then require `[`, then a later `]`;
on failure shorten the run. Returns `(data_type_name, name)`. -/
def sstTailGo (cs : List Char) : Nat → Option (List Char × List Char)
  | 0 => none
  | k + 1 =>
    match cs.drop (k + 1) with
    | '[' :: rest =>
      match beforeLastRBracket rest with
      | some nm => some (cs.take (k + 1), nm)
      | none => sstTailGo cs k
    | _ => sstTailGo cs k

/-- Prefix match of `\D+\[(.*)\]` with the greedy semantics of `re.match`. -/
def sstTail (cs : List Char) : Option (List Char × List Char) :=
  sstTailGo cs (cs.takeWhile fun c => !c.isDigit).length

/-- Backtracking for the optional greedy owner group `((?P<owner_path>.*)\/)?`:
try the rightmost slash first. `fuel` is one past the candidate slash index. -/
def sstOwnerGo (cs : List Char) : Nat → Option (Option (List Char) × List Char × List Char)
  | 0 => none
  | j + 1 =>
    if cs[j]? = some '/' then
      match sstTail (cs.drop (j + 1)) with
      | some (tn, nm) => some (some (cs.take j), tn, nm)
      | none => sstOwnerGo cs j
    else sstOwnerGo cs j

/-- `re.match` of the stored-state pattern
`((?P<owner_path>.*)\/)?(?P<data_type_name>\D+)\[(?P<name>.*)\]`
against a handle path, with Python's greedy/backtracking semantics and
no end anchor. Returns the `groupdict` on success. -/
def sstMatchL (cs : List Char) : Option (Option (List Char) × List Char × List Char) :=
  match sstOwnerGo cs cs.length with
  | some r => some r
  | none =>
    match sstTail cs with
    | some (tn, nm) => some (none, tn, nm)
    | none => none

/-- `sstMatchL` on a string: `(owner_path?, data_type_name, name)`. -/
def sstMatch (s : String) : Option (Option String × String × String) :=
  (sstMatchL s.toList).map fun r => (r.1.map String.mk, String.mk r.2.1, String.mk r.2.2)

/-- `int(s)` as used for version components, defaulting to 0 on bad input
(claims never exercise unparsable versions). -/
def parseNatD (cs : List Char) : Nat :=
  if cs ≠ [] ∧ cs.all Char.isDigit then
    cs.foldl (fun a c => a * 10 + (c.toNat - 48)) 0
  else 0

/-- Split a character list on `.`. -/
def splitDot : List Char → List (List Char)
  | [] => [[]]
  | c :: rest =>
    let r := splitDot rest
    if c = '.' then [] :: r
    else
      match r with
      | s :: ss => (c :: s) :: ss
      | [] => [[c]]

/-- `tuple(map(int, juju_version.split(".")))`. -/
def jujuVersionTuple (s : String) : List Nat :=
  (splitDot s.toList).map parseNatD

/-- Python tuple `<` (lexicographic, shorter tuple is smaller on a tie). -/
def tupleLt : List Nat → List Nat → Bool
  | _, [] => false
  | [], _ :: _ => true
  | a :: as', b :: bs => decide (a < b) || (a == b && tupleLt as' bs)

/-- First-match association lookup on string keys. -/
def lookupStr {α : Type} : List (String × α) → String → Option α
  | [], _ => none
  | (k, v) :: rest, key => if k = key then some v else lookupStr rest key

/-- Remove every pair with the given key. -/
def eraseKey {α : Type} (k : String) : List (String × α) → List (String × α)
  | [] => []
  | (k', v) :: rest => if k' = k then eraseKey k rest else (k', v) :: eraseKey k rest

/-- Whether a list of strings has no duplicates. -/
def nodupStr : List String → Bool
  | [] => true
  | s :: rest => decide (s ∉ rest) && nodupStr rest

/-! ## Data model

`scenario/state.py` is not among the sources under verification (only
`scenario/runtime.py` is), so the value types below are modelled from the
spec's data-model section (§3). -/

/-- Modelled from the spec: model identity (name, uuid) carried by `State`. -/
structure ModelInfo where
  name : String
  uuid : String

/-- Modelled from the spec: the relation reference an `Event` may carry
(endpoint name and numeric relation id). -/
structure RelationRef where
  endpoint : String
  relation_id : Int

/-- Modelled from the spec: the container reference an `Event` may carry. -/
structure ContainerRef where
  name : String

/-- Modelled from the spec: the secret reference an `Event` may carry
(id and optional label). -/
structure SecretRef where
  id : String
  label : Option String

/-- Modelled from the spec: a deferred event — handle path, owning component
path, observing method, and a simple-typed snapshot payload. The drain path
of `Runtime._close_storage` reconstructs one from the (handle, owner,
observer) triple alone, so the payload field carries a default of the empty
mapping. -/
structure DeferredEvent where
  handle_path : String
  owner : String
  observer : String
  snapshot_data : PyV := PyV.vdict []

/-- Modelled from the spec: a stored-state entry — owner path, type name,
instance name, content. Its handle path follows the stored-state pattern
`(owner_path/)?type_name[instance_name]`. -/
structure StoredState where
  owner_path : Option String
  data_type_name : String
  name : String
  content : PyV

/-- Modelled from the spec: the handle path a stored-state entry is saved
under, following the pattern `(owner_path/)?type_name[instance_name]`. -/
def StoredState.handle_path (s : StoredState) : String :=
  (match s.owner_path with
   | some o => o ++ "/"
   | none => "") ++ s.data_type_name ++ "[" ++ s.name ++ "]"

/-- Modelled from the spec: the declarative `State` snapshot a dispatch runs
against. -/
structure State where
  config : List (String × PyV)
  relations : List RelationRef
  containers : List ContainerRef
  secrets : List SecretRef
  model : ModelInfo
  deferred : List DeferredEvent
  stored_state : List StoredState

instance : Inhabited State :=
  ⟨{ config := [], relations := [], containers := [], secrets := [],
     model := ⟨"", ""⟩, deferred := [], stored_state := [] }⟩

/-- `dataclasses.replace(state, deferred=..., stored_state=...)` as used by
`Runtime._close_storage`. -/
def State.replace (st : State) (deferred : List DeferredEvent)
    (stored_state : List StoredState) : State :=
  { st with deferred := deferred, stored_state := stored_state }

/-- Modelled from the spec: the `Event` being dispatched — a name plus
optional relation/container/secret reference. -/
structure Event where
  name : String
  relation : Option RelationRef := none
  container : Option ContainerRef := none
  secret : Option SecretRef := none

/-- One option of the declared config schema (`config.yaml`'s
`options.<key>`), holding its optional `type` entry. -/
structure ConfigOption where
  typ : Option String

/-- The declared config document: its `options` mapping. -/
structure ConfigY where
  options : List (String × ConfigOption)

/-- The charm metadata document, restricted to the fields the runtime
reads: `name` and the keys of `containers`. -/
structure MetaY where
  name : String
  containers : List String

/-- Modelled from the spec: the `_CharmSpec` — metadata/config/actions
documents plus the auto-discovered flag. (`meta` is `Option` because the
runtime guards `if not meta` before reading it.) -/
structure CharmSpec where
  meta : Option MetaY
  config : Option ConfigY
  actions : Option PyV
  is_autoloaded : Bool

/-! ## EventStore bridge

Shallow model of the `SQLiteStorage` used by `_initialize_storage` /
`_close_storage`: snapshots are an insert-or-replace association table in
insertion order, notices an append-only table queried per event path. The
store round-trips payloads exactly (spec §6). -/

/-- The durable notice/snapshot store backing one dispatch. -/
structure Store where
  snapshots : List (String × PyV)
  notices : List (String × String × String)

/-- A freshly created `.unit-state.db`. -/
def Store.empty : Store := ⟨[], []⟩

/-- `save_snapshot`: INSERT OR REPLACE keyed on the handle path (a replaced
row is re-inserted at the end). -/
def Store.save_snapshot (s : Store) (h : String) (d : PyV) : Store :=
  { s with snapshots := eraseKey h s.snapshots ++ [(h, d)] }

/-- `save_notice(event_path, observer_path, method_name)`: append. -/
def Store.save_notice (s : Store) (event_path observer_path method_name : String) : Store :=
  { s with notices := s.notices ++ [(event_path, observer_path, method_name)] }

/-- `list_snapshots`: all snapshot keys in insertion order. -/
def Store.list_snapshots (s : Store) : List String :=
  s.snapshots.map fun kv => kv.1

/-- `notices(event_path)`: the notices recorded for one event path, in
sequence order. -/
def Store.noticesFor (s : Store) (event_path : String) : List (String × String × String) :=
  s.notices.filter fun t => t.1 = event_path

/-- `load_snapshot`: the stored payload, or `NoSnapshotError`. -/
def Store.load_snapshot (s : Store) (h : String) : Except String PyV :=
  match lookupStr s.snapshots h with
  | some d => .ok d
  | none => .error ("NoSnapshotError: " ++ h)

/-- The deferred-event half of `Runtime._initialize_storage`: for each
deferred event save its notice, check the payload marshals, save its
snapshot; an unmarshalable payload is a fatal `ValueError`. -/
def primeDeferredEvents (store : Store) : List DeferredEvent → Except String Store
  | [] => .ok store
  | e :: rest =>
    let store := store.save_notice e.handle_path e.owner e.observer
    if marshalable e.snapshot_data then
      primeDeferredEvents (store.save_snapshot e.handle_path e.snapshot_data) rest
    else
      .error ("unable to save the data for " ++ e.handle_path ++ ", it must contain only simple types.")

/-- The stored-state half of `Runtime._initialize_storage`. -/
def primeStoredState (store : Store) : List StoredState → Store
  | [] => store
  | s :: rest => primeStoredState (store.save_snapshot s.handle_path s.content) rest

/-- `Runtime._initialize_storage`: prime a fresh store from the input
state's deferred events, then from its stored-state entries. -/
def primeStore (state : State) : Except String Store := do
  let store ← primeDeferredEvents Store.empty state.deferred
  return primeStoredState store state.stored_state

/-- The loop body of `Runtime._close_storage`: classify each snapshot key;
event-notice keys contribute one `DeferredEvent` per recorded notice triple
(payload left at its default), other keys are parsed with the stored-state
pattern (unparsable ones are logged and skipped). -/
def drainLoop (store : Store) :
    List String → List DeferredEvent → List StoredState →
    Except String (List DeferredEvent × List StoredState)
  | [], deferred, stored => .ok (deferred, stored)
  | h :: rest, deferred, stored =>
    if eventRegexMatch h then
      let evts := (store.noticesFor h).map fun t =>
        { handle_path := t.1, owner := t.2.1, observer := t.2.2 : DeferredEvent }
      drainLoop store rest (deferred ++ evts) stored
    else do
      let snap ← store.load_snapshot h
      match sstMatch h with
      | none => drainLoop store rest deferred stored
      | some (op, tn, nm) =>
        drainLoop store rest deferred
          (stored ++ [{ owner_path := op, data_type_name := tn, name := nm, content := snap }])

/-- `Runtime._close_storage`: drain the store and replace the deferred and
stored-state lists of the (cloned) state. -/
def closeStorage (state : State) (store : Store) : Except String State := do
  let r ← drainLoop store store.list_snapshots [] []
  return state.replace r.1 r.2

/-- Priming a fresh store from a state and draining it straight back,
without any charm mutation in between (the combination `exec` performs when
the charm body is a no-op). -/
def roundTripState (st : State) : Except String State := do
  let store ← primeStore st
  closeStorage st store

/-! ## ConsistencyChecker

Embedding of `ConsistencyChecker` from `scenario/runtime.py`. The event-name
predicates and `normalize_name` live in `scenario/state.py`, which is not
among the sources, so they are modelled from the spec. Each check returns
`Except String (List String)`: the `.error` case is an exception escaping
the check (which `run` converts into a single diagnostic). -/

/-- Modelled from the spec: whether an event name is a relation-lifecycle
event (suffix-based classification). -/
def is_relation_event (name : String) : Bool :=
  ["_relation_created", "_relation_joined", "_relation_changed",
   "_relation_departed", "_relation_broken"].any fun suf => pyEndswith name suf

/-- Modelled from the spec: whether an event name is a container
(workload) lifecycle event — name suffixed by the fixed pebble-ready
marker. -/
def is_workload_event (name : String) : Bool :=
  pyEndswith name "_pebble_ready"

/-- Modelled from the spec: whether an event name is a secret event. -/
def is_secret_event (name : String) : Bool :=
  ["secret_changed", "secret_rotate", "secret_expired", "secret_remove"].any
    fun suf => pyEndswith name suf

/-- Modelled from the spec: endpoint-name normalization (dashes become
underscores) applied before comparing an endpoint against an event name. -/
def normalize_name (s : String) : String :=
  replaceChar '-' '_' s

/-- `ConsistencyChecker._check_event`. Accessing `.endpoint` (or `.name`)
on a missing reference raises `AttributeError`, mirrored by `.error`. -/
def check_event (event : Event) : Except String (List String) := do
  let errors : List String := []
  let errors :=
    if event.relation.isNone && is_relation_event event.name then
      errors ++ ["cannot construct a relation event without the relation instance. Please pass one."]
    else errors
  let errors ←
    if is_relation_event event.name then
      match event.relation with
      | none => Except.error "AttributeError: NoneType object has no attribute endpoint"
      | some rel =>
        if !pyStartswith event.name (normalize_name rel.endpoint) then
          pure (errors ++
            ["relation event should start with relation endpoint name. " ++ event.name ++
             " does not start with " ++ rel.endpoint ++ "."])
        else pure errors
    else pure errors
  let errors :=
    if event.container.isNone && is_workload_event event.name then
      errors ++ ["cannot construct a workload event without the container instance. Please pass one."]
    else errors
  let errors ←
    if is_workload_event event.name then
      match event.container with
      | none => Except.error "AttributeError: NoneType object has no attribute name"
      | some cont =>
        if !pyStartswith event.name (normalize_name cont.name) then
          pure (errors ++
            ["workload event should start with container name. " ++ event.name ++
             " does not start with " ++ cont.name ++ "."])
        else pure errors
    else pure errors
  return errors

/-- The `converters` table of `_check_config`. `cNotImplemented` is the
`NotImplemented` placeholder for the unsupported `attrs` kind. -/
inductive Converter : Type
  | cstr
  | cint
  | cfloat
  | cbool
  | cNotImplemented

/-- `converters.get(type_name)`. -/
def converters : String → Option Converter
  | "string" => some .cstr
  | "int" => some .cint
  | "integer" => some .cint
  | "number" => some .cfloat
  | "boolean" => some .cbool
  | "attrs" => some .cNotImplemented
  | _ => none

/-- `str(expected_type)` for the mismatch diagnostic. -/
def converterRepr : Converter → String
  | .cstr => "<class " ++ sq ++ "str" ++ sq ++ ">"
  | .cint => "<class " ++ sq ++ "int" ++ sq ++ ">"
  | .cfloat => "<class " ++ sq ++ "float" ++ sq ++ ">"
  | .cbool => "<class " ++ sq ++ "bool" ++ sq ++ ">"
  | .cNotImplemented => "NotImplemented"

/-- `isinstance(value, expected_type)`. -/
def isinstConv : Converter → PyV → Bool
  | .cstr, v => isinstStr v
  | .cint, v => isinstInt v
  | .cfloat, v => isinstFloat v
  | .cbool, v => isinstBool v
  | .cNotImplemented, _ => false

/-- The diagnostic for a key present in `state.config` but absent from the
schema. -/
def missingKeyMsg (key : String) : String :=
  "config option " ++ sq ++ key ++ sq ++ " in state.config but not specified in config.yaml."

/-- The diagnostic for a schema option with no `type` entry. -/
def noTypeMsg (key : String) : String :=
  "config.yaml invalid; option " ++ sq ++ key ++ sq ++ " has no " ++ sq ++ "type" ++ sq ++ "."

/-- The diagnostic for a type-mismatched config value. -/
def typeMismatchMsg (key : String) (conv : Converter) (value : PyV) : String :=
  "config invalid; option " ++ sq ++ key ++ sq ++ " should be of type " ++
    converterRepr conv ++ " but is of type " ++ pyTypeName value ++ "."

/-- Python `s[:-n]` for `0 < n ≤ len(s)`: drop the last `n` characters
(used for `event.name[: -len("-pebble-ready")]`). -/
def pyDropRight (s : String) (n : Nat) : String :=
  String.mk (s.toList.take (s.toList.length - n))

/-- Python falsiness of the optional `type` entry (`None` or `""`). -/
def optStrFalsy : Option String → Bool
  | none => true
  | some s => s = ""

/-- The per-key loop of `_check_config`, threading the accumulated error
list; `isinstance` against `None` (unknown type name) or `NotImplemented`
(the `attrs` kind) raises `TypeError`, which aborts the check and loses the
accumulated diagnostics. -/
def checkConfigLoop (opts : List (String × ConfigOption)) (errors : List String) :
    List (String × PyV) → Except String (List String)
  | [] => .ok errors
  | (key, value) :: rest =>
    match lookupStr opts key with
    | none => checkConfigLoop opts (errors ++ [missingKeyMsg key]) rest
    | some opt =>
      if optStrFalsy opt.typ then
        checkConfigLoop opts (errors ++ [noTypeMsg key]) rest
      else
        match opt.typ with
        | none => checkConfigLoop opts (errors ++ [noTypeMsg key]) rest
        | some tname =>
          match converters tname with
          | none =>
            .error "TypeError: isinstance() arg 2 must be a type, a tuple of types, or a union"
          | some .cNotImplemented =>
            .error "TypeError: isinstance() arg 2 must be a type, a tuple of types, or a union"
          | some conv =>
            if !isinstConv conv value then
              checkConfigLoop opts (errors ++ [typeMismatchMsg key conv value]) rest
            else
              checkConfigLoop opts errors rest

/-- `(charm_spec.config or {}).get("options", {})`. -/
def specOptions (spec : CharmSpec) : List (String × ConfigOption) :=
  match spec.config with
  | some c => c.options
  | none => []

/-- `ConsistencyChecker._check_config`: `(charm_spec.config or {}).get("options", {})`
then the per-key loop. -/
def check_config (state : State) (spec : CharmSpec) : Except String (List String) :=
  checkConfigLoop (specOptions spec) [] state.config

/-- `ConsistencyChecker._check_secrets`. -/
def check_secrets (state : State) (event : Event) (juju_version : List Nat) :
    Except String (List String) := do
  let errors : List String := []
  let errors :=
    if is_secret_event event.name && state.secrets.isEmpty then
      errors ++ ["the event being processed is a secret event; but the state has no secrets."]
    else errors
  let errors :=
    if (is_secret_event event.name || !state.secrets.isEmpty) && tupleLt juju_version [3] then
      errors ++ ["secrets are not supported in the specified juju version. Should be at least 3.0."]
    else errors
  return errors

/-- Render the set difference for the containers diagnostic (the Python
message interpolates a `set`; rendered here in list order). -/
def reprStrList (l : List String) : String :=
  String.mk [Char.ofNat 123] ++
    String.intercalate ", " (l.map fun s => sq ++ s ++ sq) ++
    String.mk [Char.ofNat 125]

/-- `ConsistencyChecker._check_containers`. Reading `.get` on a `None`
metadata document raises `AttributeError`, mirrored by `.error`. -/
def check_containers (state : State) (event : Event) (spec : CharmSpec) :
    Except String (List String) := do
  let meta_containers ←
    match spec.meta with
    | none => Except.error "AttributeError: NoneType object has no attribute get"
    | some m => pure m.containers
  let state_containers := state.containers.map fun c => c.name
  let errors : List String := []
  let errors :=
    if is_workload_event event.name then
      let evt_container_name := pyDropRight event.name 13
      let errors :=
        if evt_container_name ∉ meta_containers then
          errors ++ ["the event being processed concerns container " ++ sq ++ evt_container_name ++ sq ++
            ", but a container with that name is not declared in the charm metadata"]
        else errors
      if evt_container_name ∉ state_containers then
        errors ++ ["the event being processed concerns container " ++ sq ++ evt_container_name ++ sq ++
          ", but a container with that name is not present in the state. It" ++ sq ++
          "s odd, but consistent, if it cannot connect; but it should at least be there."]
      else errors
    else errors
  let diff := (state_containers.filter fun c => c ∉ meta_containers).dedup
  let errors :=
    if diff ≠ [] then
      errors ++ ["some containers declared in the state are not specified in metadata. That" ++ sq ++
        "s not possible. Missing from metadata: " ++ reprStrList diff ++ "."]
    else errors
  return errors

/-- The diagnostic `run` produces when a check raises. -/
def unexpectedErrMsg (checkName e : String) : String :=
  "an unexpected error occurred processing check " ++ checkName ++ " (" ++ e ++ "); see the logs"

/-- The try/except of `run`'s loop: a check's diagnostics, or the converted
single diagnostic if the check raised. -/
def diagsOf (checkName : String) : Except String (List String) → List String
  | .ok msgs => msgs
  | .error e => [unexpectedErrMsg checkName e]

/-- The loop of `ConsistencyChecker.run`: extend the error list with each
check's outcome, never short-circuiting. -/
def runChecksLoop : List (String × Except String (List String)) → List String
  | [] => []
  | (name, res) :: rest => diagsOf name res ++ runChecksLoop rest

/-- `ConsistencyChecker.run`: skip entirely when the opt-out flag is set;
otherwise run all four checks in order, converting an exception inside a
check into one diagnostic, and raise `InconsistentScenarioError` carrying
all collected diagnostics iff any exist. -/
def ConsistencyChecker.run (skip : Bool) (state : State) (event : Event)
    (spec : CharmSpec) (juju_version : String) : Except (List String) Unit :=
  if skip then .ok ()
  else
    let errors := runChecksLoop
      [("_check_containers", check_containers state event spec),
       ("_check_config", check_config state spec),
       ("_check_event", check_event event),
       ("_check_secrets", check_secrets state event (jujuVersionTuple juju_version))]
    if errors = [] then .ok () else .error errors

/-! ## Environment, heap and Runtime -/

/-- Process environment at the C level: `os.environ.update` sets keys
(and `putenv`s them), `os.unsetenv` removes them. -/
def Env : Type := List (String × String)

/-- Set one environment variable (replace in place, else append). -/
def envSet (env : Env) (k v : String) : Env :=
  match env with
  | [] => [(k, v)]
  | (k', v') :: rest => if k' = k then (k, v) :: rest else (k', v') :: envSet rest k v

/-- `os.environ.update(d)`. -/
def envUpdate (env : Env) (kvs : List (String × String)) : Env :=
  kvs.foldl (fun e kv => envSet e kv.1 kv.2) env

/-- `os.unsetenv(k)`. -/
def envUnset (env : Env) (k : String) : Env :=
  env.filter fun kv => kv.1 ≠ k

/-- `Runtime._cleanup_env(env)`: unset every key of the applied dict. -/
def cleanupEnv (applied : List (String × String)) (env : Env) : Env :=
  applied.foldl (fun e kv => envUnset e kv.1) env

/-- `os.getenv(k)`. -/
def envLookup (env : Env) (k : String) : Option String :=
  lookupStr env k

/-- Python truthiness of `os.getenv(...)` (unset or empty is falsy). -/
def envTruthy : Option String → Bool
  | none => false
  | some s => s ≠ ""

/-- The opt-out variable read by `ConsistencyChecker.run`. -/
def skipChecksKey : String := "SCENARIO_SKIP_CONSISTENCY_CHECKS"

/-- A heap of Python `State` objects: references are indices, `alloc`
appends (a fresh object such as `state.copy()`), `set` mutates in place. -/
structure Heap where
  cells : List State

/-- Dereference. -/
def Heap.get (h : Heap) (r : Nat) : Option State :=
  h.cells[r]?

/-- Allocate a fresh object, returning its reference. -/
def Heap.alloc (h : Heap) (s : State) : Heap × Nat :=
  ({ cells := h.cells ++ [s] }, h.cells.length)

/-- Mutate the object at `r` in place. -/
def Heap.set (h : Heap) (r : Nat) (s : State) : Heap :=
  { cells := h.cells.set r s }

/-- A custom charm root supplied by the caller: its path and whether any of
the three metadata files already exists in it. -/
structure CustomRoot where
  path : String
  metadata_files_present : Bool

/-- The `Runtime` constructor arguments. -/
structure Runtime where
  charm_spec : CharmSpec
  charm_root : Option CustomRoot
  juju_version : String

/-- `Runtime.unit_name`: `meta["name"] + "/0"`, or `local/0` without
metadata. -/
def Runtime.unit_name (rt : Runtime) : String :=
  match rt.charm_spec.meta with
  | none => "local/0"
  | some m => m.name ++ "/0"

/-- `Runtime._get_event_env`: the environment dict applied before invoking
the charm. -/
def Runtime.get_event_env (rt : Runtime) (state : State) (event : Event)
    (charm_root_abs : String) : List (String × String) :=
  let action_name :=
    if pyEndswith event.name "_action" then
      replaceChar '_' '-' (pyDropRight event.name 7)
    else ""
  let env := [("JUJU_VERSION", rt.juju_version),
              ("JUJU_UNIT_NAME", rt.unit_name),
              ("_", "./dispatch"),
              ("JUJU_DISPATCH_PATH", "hooks/" ++ event.name),
              ("JUJU_MODEL_NAME", state.model.name),
              ("JUJU_ACTION_NAME", action_name),
              ("JUJU_MODEL_UUID", state.model.uuid),
              ("JUJU_CHARM_DIR", charm_root_abs)]
  let env :=
    match event.relation with
    | some rel => env ++ [("JUJU_RELATION", rel.endpoint),
                          ("JUJU_RELATION_ID", toString rel.relation_id)]
    | none => env
  let env :=
    match event.container with
    | some cont => env ++ [("JUJU_WORKLOAD_NAME", cont.name)]
    | none => env
  let env :=
    match event.secret with
    | some sec => env ++ [("JUJU_SECRET_ID", sec.id),
                          ("JUJU_SECRET_LABEL", sec.label.getD "")]
    | none => env
  env

/-- How the charm invocation (`scenario.ops_main_mock.main`) ends. -/
inductive COutcome : Type
  | success
  | noObserver
  | raises : String → COutcome

/-- The effect of one charm invocation: the state of the working copy and
of the store when the invocation ends, plus how it ended. -/
structure CharmResult where
  state : State
  store : Store
  outcome : COutcome

/-- The charm entry point, as a function of the (cloned) working state and
the primed store. -/
def Charm : Type := State → Store → CharmResult

/-- The error taxonomy `Runtime.exec` can raise. -/
inductive ExecError : Type
  | inconsistent : List String → ExecError
  | dirtyVirtualCharmRoot : ExecError
  | valueError : String → ExecError
  | noObserver : ExecError
  | uncaughtCharm : String → ExecError
  | noSnapshot : String → ExecError

/-- Everything observable when `Runtime.exec` returns or raises: the result,
the process environment, the heap of state objects, whether a private
temporary root was created, whether the acquired root's `cleanup()` ran,
whether the storage was initialized, and whether the metadata documents
were written into the root. -/
structure ExecOutcome where
  result : Except ExecError State
  env : Env
  heap : Heap
  tempRootCreated : Bool
  vrootCleaned : Bool
  storageInitialized : Bool
  metadataFilesWritten : Bool

/-- `Runtime.exec`. Mirrors `scenario/runtime.py` line by line:
consistency check first; clone the input state; enter the virtual charm
root (raising `DirtyVirtualCharmRootError` before any other side effect
when a custom root holds metadata files under caller-supplied metadata);
prime the store from the original state; apply the event environment;
invoke the charm on the clone; `NoObserverError` propagates unchanged and
any other charm exception is wrapped in `UncaughtCharmError` — both
propagate through the `virtual_charm_root` context manager, whose
post-`yield` cleanup (like the env cleanup after the `try`) therefore does
not run; on success the env is cleaned up, the store drained into the
clone, and a private temporary root removed. `tmpdir` is the name the
temporary directory would get. -/
def Runtime.exec (rt : Runtime) (tmpdir : String) (env0 : Env) (heap0 : Heap)
    (stateRef : Nat) (event : Event) (charm : Charm) : ExecOutcome :=
  let state := (heap0.get stateRef).getD default
  let skip := envTruthy (envLookup env0 skipChecksKey)
  match ConsistencyChecker.run skip state event rt.charm_spec rt.juju_version with
  | .error errs =>
    { result := .error (.inconsistent errs), env := env0, heap := heap0,
      tempRootCreated := false, vrootCleaned := false,
      storageInitialized := false, metadataFilesWritten := false }
  | .ok _ =>
    -- output_state = state.copy()
    let (heap1, outRef) := heap0.alloc state
    -- with self.virtual_charm_root() as temporary_charm_root:
    let tempRootCreated := rt.charm_root.isNone
    let metadata_files_present :=
      match rt.charm_root with
      | some cr => cr.metadata_files_present
      | none => false
    if !rt.charm_spec.is_autoloaded && metadata_files_present then
      { result := .error .dirtyVirtualCharmRoot, env := env0, heap := heap1,
        tempRootCreated := tempRootCreated, vrootCleaned := false,
        storageInitialized := false, metadataFilesWritten := false }
    else
      let charm_root_abs :=
        match rt.charm_root with
        | some cr => cr.path
        | none => tmpdir
      match primeStore state with
      | .error m =>
        { result := .error (.valueError m), env := env0, heap := heap1,
          tempRootCreated := tempRootCreated, vrootCleaned := false,
          storageInitialized := true, metadataFilesWritten := true }
      | .ok store0 =>
        let applied := rt.get_event_env state event charm_root_abs
        let env1 := envUpdate env0 applied
        let res := charm ((heap1.get outRef).getD default) store0
        let heap2 := heap1.set outRef res.state
        match res.outcome with
        | .noObserver =>
          { result := .error .noObserver, env := env1, heap := heap2,
            tempRootCreated := tempRootCreated, vrootCleaned := false,
            storageInitialized := true, metadataFilesWritten := true }
        | .raises e =>
          { result := .error (.uncaughtCharm e), env := env1, heap := heap2,
            tempRootCreated := tempRootCreated, vrootCleaned := false,
            storageInitialized := true, metadataFilesWritten := true }
        | .success =>
          let env2 := cleanupEnv applied env1
          match closeStorage ((heap2.get outRef).getD default) res.store with
          | .error m =>
            { result := .error (.noSnapshot m), env := env2, heap := heap2,
              tempRootCreated := tempRootCreated, vrootCleaned := false,
              storageInitialized := true, metadataFilesWritten := true }
          | .ok out =>
            { result := .ok out, env := env2, heap := heap2,
              tempRootCreated := tempRootCreated, vrootCleaned := tempRootCreated,
              storageInitialized := true, metadataFilesWritten := true }

/-! ## Derived descriptions of the config check (used to state C9/C10) -/

/-- The diagnostics one `state.config` entry contributes in `_check_config`
when no entry makes the check raise. -/
def perKeyDiags (opts : List (String × ConfigOption)) (key : String) (value : PyV) :
    List String :=
  match lookupStr opts key with
  | none => [missingKeyMsg key]
  | some opt =>
    if optStrFalsy opt.typ then [noTypeMsg key]
    else
      match opt.typ with
      | none => [noTypeMsg key]
      | some tname =>
        match converters tname with
        | none => []
        | some .cNotImplemented => []
        | some conv =>
          if !isinstConv conv value then [typeMismatchMsg key conv value] else []

/-- Whether processing this key makes `_check_config` raise `TypeError`
(declared type unknown to the converters table, or the `attrs` kind). -/
def configKeyRaises (opts : List (String × ConfigOption)) (key : String) : Bool :=
  match lookupStr opts key with
  | none => false
  | some opt =>
    if optStrFalsy opt.typ then false
    else
      match opt.typ with
      | none => false
      | some tname =>
        match converters tname with
        | none => true
        | some .cNotImplemented => true
        | some _ => false

/-! ## Concrete scenarios used by counterexamples and witnesses -/

/-- A charm whose event handler does nothing at all. -/
def charmNop : Charm := fun st store => { state := st, store := store, outcome := .success }

/-- A charm that raises from its event handler. -/
def charmBoom : Charm := fun st store => { state := st, store := store, outcome := .raises "boom" }

/-- A state with `config = {"replicas": "3"}` and nothing else. -/
def stReplicas : State :=
  { config := [("replicas", PyV.vstr "3")], relations := [], containers := [],
    secrets := [], model := ⟨"mdl", "uuid-0"⟩, deferred := [], stored_state := [] }

/-- The same scenario with a boolean value for the integer-typed option. -/
def stReplicasBool : State :=
  { stReplicas with config := [("replicas", PyV.vbool true)] }

/-- A charm spec declaring `replicas` as type `integer`. -/
def specReplicas : CharmSpec :=
  { meta := some ⟨"mycharm", []⟩,
    config := some ⟨[("replicas", ⟨some "integer"⟩)]⟩,
    actions := none, is_autoloaded := true }

/-- A runtime for the `replicas` scenarios (private temporary root). -/
def rtReplicas : Runtime :=
  { charm_spec := specReplicas, charm_root := none, juju_version := "3.0.0" }

/-- A plain lifecycle event carrying no references. -/
def eventStart : Event := { name := "start" }

/-! ## Derived descriptions of the primed store (used to state C1) -/

/-- The snapshot table `_initialize_storage` produces (deferred events
first, stored state after), when all handle paths are distinct. -/
def primedSnapshots (st : State) : List (String × PyV) :=
  st.deferred.map (fun e => (e.handle_path, e.snapshot_data)) ++
    st.stored_state.map fun s => (s.handle_path, s.content)

/-- The notice table `_initialize_storage` produces. -/
def primedNotices (st : State) : List (String × String × String) :=
  st.deferred.map fun e => (e.handle_path, e.owner, e.observer)

/-- A deferred event as `_close_storage` reconstructs it: the notice triple
with the payload back at its default (the empty mapping). -/
def resetSnap (e : DeferredEvent) : DeferredEvent :=
  { handle_path := e.handle_path, owner := e.owner, observer := e.observer }

/-- A state whose single deferred event carries a non-empty snapshot
payload (C1's counterexample input: N = 1, M = 0). -/
def stC1x : State :=
  { config := [], relations := [], containers := [], secrets := [],
    model := ⟨"mdl", "uuid-1"⟩,
    deferred := [{ handle_path := "MyCharm/on/update_status[2]", owner := "MyCharm/on",
                   observer := "_on_update_status",
                   snapshot_data := PyV.vdict [("foo", PyV.vint 1)] }],
    stored_state := [] }

/-- A well-formed state with one deferred event (empty payload) and one
stored-state entry (C1's witness input: N = 1, M = 1). -/
def stC1w : State :=
  { config := [], relations := [], containers := [], secrets := [],
    model := ⟨"mdl", "uuid-2"⟩,
    deferred := [{ handle_path := "MyCharm/on/start[4]", owner := "MyCharm/on",
                   observer := "_on_start", snapshot_data := PyV.vdict [] }],
    stored_state := [{ owner_path := some "MyCharm", data_type_name := "StoredStateData",
                       name := "_stored", content := PyV.vdict [("count", PyV.vint 3)] }] }

/-- The `replicas` charm spec with caller-supplied (non-autoloaded)
metadata. -/
def specReplicasManual : CharmSpec := { specReplicas with is_autoloaded := false }

/-- A caller-supplied charm root that already contains metadata files. -/
def crPre : CustomRoot := { path := "/home/user/charm", metadata_files_present := true }

/-- A runtime with caller-supplied metadata and the dirty custom root. -/
def rtCustomDirty : Runtime :=
  { charm_spec := specReplicasManual, charm_root := some crPre, juju_version := "3.0.0" }

/-- A runtime with autoloaded metadata and the same custom root. -/
def rtCustomAuto : Runtime :=
  { charm_spec := specReplicas, charm_root := some crPre, juju_version := "3.0.0" }

/-- A relation-lifecycle event carrying no relation reference. -/
def eventRelBad : Event := { name := "db_relation_changed" }

/-! ## Theorems -/

/-! ### Heap lemmas -/

theorem heap_get_lt {h : Heap} {r : Nat} {s : State} (hr : h.get r = some s) :
    r < h.cells.length := by
  rcases Nat.lt_or_ge r h.cells.length with hlt | hge
  · exact hlt
  · rw [Heap.get, List.getElem?_eq_none hge] at hr
    cases hr

theorem heap_get_alloc {h : Heap} {s : State} {r : Nat} (hr : r < h.cells.length) :
    (h.alloc s).1.get r = h.get r := by
  simp [Heap.alloc, Heap.get, List.getElem?_append, hr]

theorem heap_get_alloc_new (h : Heap) (s : State) :
    (h.alloc s).1.get (h.alloc s).2 = some s := by
  simp [Heap.alloc, Heap.get]

theorem heap_get_set_ne {h : Heap} {r r' : Nat} {s : State} (hne : r ≠ r') :
    (h.set r' s).get r = h.get r := by
  simp [Heap.set, Heap.get, List.getElem?_set_ne (Ne.symm hne)]

theorem heap_get_set_self {h : Heap} {r : Nat} (s : State) (hr : r < h.cells.length) :
    (h.set r s).get r = some s := by
  simp [Heap.set, Heap.get, List.getElem?_set_self, hr]


/-- The four diagnostics lists `ConsistencyChecker.run` aggregates, in
check order. -/
def allCheckDiags (state : State) (event : Event) (spec : CharmSpec) (jv : String) : List String :=
  diagsOf "_check_containers" (check_containers state event spec) ++
    diagsOf "_check_config" (check_config state spec) ++
    diagsOf "_check_event" (check_event event) ++
    diagsOf "_check_secrets" (check_secrets state event (jujuVersionTuple jv))

theorem runChecksLoop_eq (state : State) (event : Event) (spec : CharmSpec) (jv : String) :
    runChecksLoop
      [("_check_containers", check_containers state event spec),
       ("_check_config", check_config state spec),
       ("_check_event", check_event event),
       ("_check_secrets", check_secrets state event (jujuVersionTuple jv))] =
    allCheckDiags state event spec jv := by
  simp [runChecksLoop, allCheckDiags]

theorem run_error_of_diags_ne_nil {state : State} {event : Event} {spec : CharmSpec}
    {jv : String} (hd : allCheckDiags state event spec jv ≠ []) :
    ConsistencyChecker.run false state event spec jv =
      .error (allCheckDiags state event spec jv) := by
  simp [ConsistencyChecker.run, runChecksLoop_eq, hd]

theorem check_event_diags_ne_nil {event : Event}
    (hrel : is_relation_event event.name = true)
    (hpf : ∀ rel, event.relation = some rel →
      pyStartswith event.name (normalize_name rel.endpoint) = false) :
    diagsOf "_check_event" (check_event event) ≠ [] := by
  cases hopt : event.relation with
  | none =>
    simp [check_event, hrel, hopt, diagsOf, unexpectedErrMsg, bind, Except.bind]
  | some rel =>
    have hpf' := hpf rel hopt
    simp only [check_event, hrel, hopt, hpf', Option.isNone_some, Bool.false_and,
      if_true, if_false, Bool.not_false, ite_true, ite_false, bind, Except.bind, pure,
      Except.pure]
    cases hwk : is_workload_event event.name with
    | false =>
      simp [hwk, diagsOf]
    | true =>
      cases hcont : event.container with
      | none => simp [hwk, hcont, diagsOf, unexpectedErrMsg]
      | some cont =>
        cases hps : pyStartswith event.name (normalize_name cont.name) with
        | false => simp [hwk, hcont, hps, diagsOf]
        | true => simp [hwk, hcont, hps, diagsOf]

theorem allCheckDiags_ne_nil_of_event {state : State} {event : Event} {spec : CharmSpec}
    {jv : String} (h : diagsOf "_check_event" (check_event event) ≠ []) :
    allCheckDiags state event spec jv ≠ [] := by
  simp only [allCheckDiags, ne_eq, List.append_eq_nil]
  intro hc
  exact h (by tauto)

/-- The metadata-files condition `virtual_charm_root` tests (always false
for a private temporary root). -/
def rootFilesPresent (rt : Runtime) : Bool :=
  match rt.charm_root with
  | some cr => cr.metadata_files_present
  | none => false

/-- The charm-root path handed to the environment builder. -/
def rootPath (rt : Runtime) (tmpdir : String) : String :=
  match rt.charm_root with
  | some cr => cr.path
  | none => tmpdir

theorem exec_eq_inconsistent (rt : Runtime) (tmpdir : String) (env0 : Env) (heap0 : Heap)
    (stateRef : Nat) (event : Event) (charm : Charm) (st : State) (errs : List String)
    (hst : heap0.get stateRef = some st)
    (hrun : ConsistencyChecker.run (envTruthy (envLookup env0 skipChecksKey)) st event
      rt.charm_spec rt.juju_version = .error errs) :
    rt.exec tmpdir env0 heap0 stateRef event charm =
      { result := .error (.inconsistent errs), env := env0, heap := heap0,
        tempRootCreated := false, vrootCleaned := false,
        storageInitialized := false, metadataFilesWritten := false } := by
  simp [Runtime.exec, hst, hrun]

theorem exec_eq_dirty (rt : Runtime) (tmpdir : String) (env0 : Env) (heap0 : Heap)
    (stateRef : Nat) (event : Event) (charm : Charm) (st : State)
    (hst : heap0.get stateRef = some st)
    (hrun : ConsistencyChecker.run (envTruthy (envLookup env0 skipChecksKey)) st event
      rt.charm_spec rt.juju_version = .ok ())
    (hd : (!rt.charm_spec.is_autoloaded && rootFilesPresent rt) = true) :
    rt.exec tmpdir env0 heap0 stateRef event charm =
      { result := .error .dirtyVirtualCharmRoot, env := env0, heap := (heap0.alloc st).1,
        tempRootCreated := rt.charm_root.isNone, vrootCleaned := false,
        storageInitialized := false, metadataFilesWritten := false } := by
  simp only [rootFilesPresent] at hd
  simp [Runtime.exec, hst, hrun, hd]

theorem exec_eq_prime_error (rt : Runtime) (tmpdir : String) (env0 : Env) (heap0 : Heap)
    (stateRef : Nat) (event : Event) (charm : Charm) (st : State) (m : String)
    (hst : heap0.get stateRef = some st)
    (hrun : ConsistencyChecker.run (envTruthy (envLookup env0 skipChecksKey)) st event
      rt.charm_spec rt.juju_version = .ok ())
    (hdirty : (!rt.charm_spec.is_autoloaded && rootFilesPresent rt) = false)
    (hprime : primeStore st = .error m) :
    rt.exec tmpdir env0 heap0 stateRef event charm =
      { result := .error (.valueError m), env := env0, heap := (heap0.alloc st).1,
        tempRootCreated := rt.charm_root.isNone, vrootCleaned := false,
        storageInitialized := true, metadataFilesWritten := true } := by
  simp only [rootFilesPresent] at hdirty
  simp [Runtime.exec, hst, hrun, hdirty, hprime]

theorem exec_eq_reached (rt : Runtime) (tmpdir : String) (env0 : Env) (heap0 : Heap)
    (stateRef : Nat) (event : Event) (charm : Charm) (st : State) (store0 : Store)
    (hst : heap0.get stateRef = some st)
    (hrun : ConsistencyChecker.run (envTruthy (envLookup env0 skipChecksKey)) st event
      rt.charm_spec rt.juju_version = .ok ())
    (hdirty : (!rt.charm_spec.is_autoloaded && rootFilesPresent rt) = false)
    (hprime : primeStore st = .ok store0) :
    rt.exec tmpdir env0 heap0 stateRef event charm =
      (let applied := rt.get_event_env st event (rootPath rt tmpdir)
       let env1 := envUpdate env0 applied
       let res := charm st store0
       let heap2 := (heap0.alloc st).1.set (heap0.alloc st).2 res.state
       match res.outcome with
       | .noObserver =>
         { result := .error .noObserver, env := env1, heap := heap2,
           tempRootCreated := rt.charm_root.isNone, vrootCleaned := false,
           storageInitialized := true, metadataFilesWritten := true }
       | .raises e =>
         { result := .error (.uncaughtCharm e), env := env1, heap := heap2,
           tempRootCreated := rt.charm_root.isNone, vrootCleaned := false,
           storageInitialized := true, metadataFilesWritten := true }
       | .success =>
         let env2 := cleanupEnv applied env1
         match closeStorage res.state res.store with
         | .error m =>
           { result := .error (.noSnapshot m), env := env2, heap := heap2,
             tempRootCreated := rt.charm_root.isNone, vrootCleaned := false,
             storageInitialized := true, metadataFilesWritten := true }
         | .ok out =>
           { result := .ok out, env := env2, heap := heap2,
             tempRootCreated := rt.charm_root.isNone,
             vrootCleaned := rt.charm_root.isNone,
             storageInitialized := true, metadataFilesWritten := true }) := by
  simp only [rootFilesPresent] at hdirty
  have hnew := heap_get_alloc_new heap0 st
  have hset := heap_get_set_self (h := (heap0.alloc st).1)
    (r := (heap0.alloc st).2)
    ((charm st store0).state)
    (by simp [Heap.alloc])
  simp only [Runtime.exec, hst, Option.getD_some, hrun, hdirty, hprime, rootPath,
    hnew, hset, Bool.false_eq_true, if_false]

/-- Claim C3: `Runtime.exec` never mutates the caller-supplied input
`State` object in place — it clones it and lets the charm mutate only the
clone — and is atomic to the caller: its result is exactly one of an output
state or a raised error. On every exit path the heap cell holding the input
state is unchanged. -/
theorem c3_exec_never_mutates_input (rt : Runtime) (tmpdir : String) (env0 : Env)
    (heap0 : Heap) (stateRef : Nat) (event : Event) (charm : Charm) (st : State)
    (hst : heap0.get stateRef = some st) :
    (rt.exec tmpdir env0 heap0 stateRef event charm).heap.get stateRef = some st ∧
    ((∃ out, (rt.exec tmpdir env0 heap0 stateRef event charm).result = .ok out) ∨
      (∃ e, (rt.exec tmpdir env0 heap0 stateRef event charm).result = .error e)) := by
  have hlt : stateRef < heap0.cells.length := heap_get_lt hst
  have hne : stateRef ≠ heap0.cells.length := Nat.ne_of_lt hlt
  have h1 : ∀ s, ((heap0.alloc s).1).get stateRef = some st := fun s => by
    rw [heap_get_alloc hlt]
    exact hst
  have h2 : ∀ s s', (((heap0.alloc s).1).set (heap0.alloc s).2 s').get stateRef = some st :=
    fun s s' => by
      rw [Heap.alloc, heap_get_set_ne hne]
      exact h1 s
  constructor
  · cases hrun : ConsistencyChecker.run (envTruthy (envLookup env0 skipChecksKey)) st event
        rt.charm_spec rt.juju_version with
    | error errs =>
      rw [exec_eq_inconsistent rt tmpdir env0 heap0 stateRef event charm st errs hst hrun]
      exact hst
    | ok u =>
      cases u
      cases hd : (!rt.charm_spec.is_autoloaded && rootFilesPresent rt) with
      | true =>
        rw [exec_eq_dirty rt tmpdir env0 heap0 stateRef event charm st hst hrun hd]
        exact h1 st
      | false =>
        cases hprime : primeStore st with
        | error m =>
          rw [exec_eq_prime_error rt tmpdir env0 heap0 stateRef event charm st m hst hrun hd
            hprime]
          exact h1 st
        | ok store0 =>
          rw [exec_eq_reached rt tmpdir env0 heap0 stateRef event charm st store0 hst hrun hd
            hprime]
          cases ho : (charm st store0).outcome with
          | noObserver =>
            simp only [ho]
            exact h2 _ _
          | raises e =>
            simp only [ho]
            exact h2 _ _
          | success =>
            simp only [ho]
            cases hcs : closeStorage (charm st store0).state (charm st store0).store with
            | error m =>
              simp only [hcs]
              exact h2 _ _
            | ok out =>
              simp only [hcs]
              exact h2 _ _
  · cases hres : (rt.exec tmpdir env0 heap0 stateRef event charm).result with
    | ok out => exact .inl ⟨out, rfl⟩
    | error e => exact .inr ⟨e, rfl⟩

/-- Claim C4: a `NoObserverError` raised by the charm entry point propagates
to the caller unchanged, while any other exception raised by charm code is
wrapped in `UncaughtCharmError` with the original exception preserved as its
cause; in both cases `exec` produces an error, not an output state. -/
theorem c4_error_propagation (rt : Runtime) (tmpdir : String) (env0 : Env)
    (heap0 : Heap) (stateRef : Nat) (event : Event) (charm : Charm) (st : State)
    (store0 : Store)
    (hst : heap0.get stateRef = some st)
    (hrun : ConsistencyChecker.run (envTruthy (envLookup env0 skipChecksKey)) st event
      rt.charm_spec rt.juju_version = .ok ())
    (hdirty : (!rt.charm_spec.is_autoloaded && rootFilesPresent rt) = false)
    (hprime : primeStore st = .ok store0) :
    ((charm st store0).outcome = .noObserver →
      (rt.exec tmpdir env0 heap0 stateRef event charm).result = .error .noObserver) ∧
    (∀ e, (charm st store0).outcome = .raises e →
      (rt.exec tmpdir env0 heap0 stateRef event charm).result = .error (.uncaughtCharm e)) := by
  rw [exec_eq_reached rt tmpdir env0 heap0 stateRef event charm st store0 hst hrun hdirty hprime]
  constructor
  · intro h
    simp only [h]
  · intro e h
    simp only [h]

theorem envLookup_unset_self (env : Env) (k : String) :
    envLookup (envUnset env k) k = none := by
  induction env with
  | nil => rfl
  | cons kv rest ih =>
    by_cases h : kv.1 = k
    · simpa [envUnset, h] using ih
    · simpa [envUnset, envLookup, lookupStr, h] using ih

theorem envLookup_unset_none {env : Env} {k : String} (k' : String)
    (h : envLookup env k = none) : envLookup (envUnset env k') k = none := by
  induction env with
  | nil => rfl
  | cons kv rest ih =>
    by_cases hk : kv.1 = k
    · simp [envLookup, lookupStr, hk] at h
    · simp only [envLookup, lookupStr, hk, if_false] at h
      by_cases hk' : kv.1 = k'
      · simpa [envUnset, hk'] using ih h
      · simpa [envUnset, envLookup, lookupStr, hk, hk'] using ih h

theorem cleanup_preserves_none {k : String} (applied : List (String × String)) (env : Env)
    (h : envLookup env k = none) : envLookup (cleanupEnv applied env) k = none := by
  induction applied generalizing env with
  | nil => exact h
  | cons kv rest ih => exact ih (envUnset env kv.1) (envLookup_unset_none kv.1 h)

theorem envLookup_cleanup_applied {k : String} (applied : List (String × String)) (env : Env)
    (hk : k ∈ applied.map Prod.fst) : envLookup (cleanupEnv applied env) k = none := by
  induction applied generalizing env with
  | nil => cases hk
  | cons kv rest ih =>
    rcases List.mem_cons.mp hk with heq | hmem
    · exact cleanup_preserves_none rest (envUnset env kv.1)
        (heq ▸ envLookup_unset_self env kv.1)
    · exact ih (envUnset env kv.1) hmem

/-- Claim C2 (amended): the environment variables `exec` applies before
invoking the charm are removed — as a whole key set — only on the success
path; after a successful dispatch every applied key is absent from the
process environment, but when the charm invocation raises
(`UncaughtCharmError` or `NoObserverError`) the exception propagates past
the cleanup call, so the applied keys remain set. -/
theorem c2_env_cleanup_on_success_only (rt : Runtime) (tmpdir : String) (env0 : Env)
    (heap0 : Heap) (stateRef : Nat) (event : Event) (charm : Charm) (st : State)
    (store0 : Store)
    (hst : heap0.get stateRef = some st)
    (hrun : ConsistencyChecker.run (envTruthy (envLookup env0 skipChecksKey)) st event
      rt.charm_spec rt.juju_version = .ok ())
    (hdirty : (!rt.charm_spec.is_autoloaded && rootFilesPresent rt) = false)
    (hprime : primeStore st = .ok store0) :
    ((charm st store0).outcome = .success →
      ∀ k ∈ (rt.get_event_env st event (rootPath rt tmpdir)).map Prod.fst,
        envLookup (rt.exec tmpdir env0 heap0 stateRef event charm).env k = none) ∧
    (∀ e, (charm st store0).outcome = .raises e →
      (rt.exec tmpdir env0 heap0 stateRef event charm).env =
        envUpdate env0 (rt.get_event_env st event (rootPath rt tmpdir))) ∧
    ((charm st store0).outcome = .noObserver →
      (rt.exec tmpdir env0 heap0 stateRef event charm).env =
        envUpdate env0 (rt.get_event_env st event (rootPath rt tmpdir))) := by
  rw [exec_eq_reached rt tmpdir env0 heap0 stateRef event charm st store0 hst hrun hdirty hprime]
  refine ⟨fun hs k hk => ?_, fun e hr => ?_, fun hn => ?_⟩
  · simp only [hs]
    cases hcs : closeStorage (charm st store0).state (charm st store0).store with
    | error m =>
      simp only [hcs]
      exact envLookup_cleanup_applied _ _ hk
    | ok out =>
      simp only [hcs]
      exact envLookup_cleanup_applied _ _ hk
  · simp only [hr]
  · simp only [hn]

/-- Counterexample to claim C2 as stated: a dispatch whose charm raises ends
with `exec` raising `UncaughtCharmError`, yet an environment variable that
`exec` applied before invoking the charm (here `JUJU_VERSION`) is still
present in the process environment afterwards. -/
theorem c2_counterexample_env_left_on_raise :
    (rtReplicas.exec "/tmp/vroot2" [] ⟨[stReplicasBool]⟩ 0 eventStart charmBoom).result =
      .error (.uncaughtCharm "boom") ∧
    "JUJU_VERSION" ∈ (rtReplicas.get_event_env stReplicasBool eventStart
      (rootPath rtReplicas "/tmp/vroot2")).map Prod.fst ∧
    envLookup (rtReplicas.exec "/tmp/vroot2" [] ⟨[stReplicasBool]⟩ 0 eventStart charmBoom).env
      "JUJU_VERSION" = some "3.0.0" := by
  refine ⟨rfl, by decide, rfl⟩

/-- Claim C6: with caller-supplied (non-autoloaded) metadata and a custom
charm root already containing a metadata, config, or actions file, `exec`
raises `DirtyVirtualCharmRootError` (the spec's DirtyExecutionRootError)
before any environment variable is applied and before anything is written
to the event store; under autoloaded metadata the same pre-existing files
are instead overwritten without error. -/
theorem c6_dirty_root_aborts_before_side_effects (rt : Runtime) (tmpdir : String)
    (env0 : Env) (heap0 : Heap) (stateRef : Nat) (event : Event) (charm : Charm)
    (st : State) (cr : CustomRoot)
    (hst : heap0.get stateRef = some st)
    (hrun : ConsistencyChecker.run (envTruthy (envLookup env0 skipChecksKey)) st event
      rt.charm_spec rt.juju_version = .ok ())
    (hroot : rt.charm_root = some cr) :
    (rt.charm_spec.is_autoloaded = false → cr.metadata_files_present = true →
      (rt.exec tmpdir env0 heap0 stateRef event charm).result = .error .dirtyVirtualCharmRoot ∧
      (rt.exec tmpdir env0 heap0 stateRef event charm).env = env0 ∧
      (rt.exec tmpdir env0 heap0 stateRef event charm).storageInitialized = false) ∧
    (rt.charm_spec.is_autoloaded = true →
      (rt.exec tmpdir env0 heap0 stateRef event charm).result ≠ .error .dirtyVirtualCharmRoot ∧
      (rt.exec tmpdir env0 heap0 stateRef event charm).metadataFilesWritten = true) := by
  constructor
  · intro hauto hpres
    have hd : (!rt.charm_spec.is_autoloaded && rootFilesPresent rt) = true := by
      simp [hauto, rootFilesPresent, hroot, hpres]
    rw [exec_eq_dirty rt tmpdir env0 heap0 stateRef event charm st hst hrun hd]
    exact ⟨rfl, rfl, rfl⟩
  · intro hauto
    have hd : (!rt.charm_spec.is_autoloaded && rootFilesPresent rt) = false := by
      simp [hauto]
    cases hprime : primeStore st with
    | error m =>
      rw [exec_eq_prime_error rt tmpdir env0 heap0 stateRef event charm st m hst hrun hd hprime]
      exact ⟨by simp, rfl⟩
    | ok store0 =>
      rw [exec_eq_reached rt tmpdir env0 heap0 stateRef event charm st store0 hst hrun hd hprime]
      cases ho : (charm st store0).outcome with
      | noObserver => simp [ho]
      | raises e => simp [ho]
      | success =>
        simp only [ho]
        cases hcs : closeStorage (charm st store0).state (charm st store0).store with
        | error m => simp [hcs]
        | ok out => simp [hcs]

/-- On every path of `exec`, the acquired root's `cleanup()` runs exactly
when the dispatch fully succeeded and the root was a private temporary one,
and a temporary root is created whenever execution gets past the
consistency check with no custom root configured. -/
theorem exec_cleanup_fields (rt : Runtime) (tmpdir : String) (env0 : Env) (heap0 : Heap)
    (stateRef : Nat) (event : Event) (charm : Charm) (st : State)
    (hst : heap0.get stateRef = some st) :
    ((rt.exec tmpdir env0 heap0 stateRef event charm).vrootCleaned =
      match (rt.exec tmpdir env0 heap0 stateRef event charm).result with
      | .ok _ => rt.charm_root.isNone
      | .error _ => false) ∧
    ((rt.exec tmpdir env0 heap0 stateRef event charm).tempRootCreated =
      match (rt.exec tmpdir env0 heap0 stateRef event charm).result with
      | .error (.inconsistent _) => false
      | _ => rt.charm_root.isNone) := by
  cases hrun : ConsistencyChecker.run (envTruthy (envLookup env0 skipChecksKey)) st event
      rt.charm_spec rt.juju_version with
  | error errs =>
    rw [exec_eq_inconsistent rt tmpdir env0 heap0 stateRef event charm st errs hst hrun]
    exact ⟨rfl, rfl⟩
  | ok u =>
    cases u
    cases hd : (!rt.charm_spec.is_autoloaded && rootFilesPresent rt) with
    | true =>
      rw [exec_eq_dirty rt tmpdir env0 heap0 stateRef event charm st hst hrun hd]
      exact ⟨rfl, rfl⟩
    | false =>
      cases hprime : primeStore st with
      | error m =>
        rw [exec_eq_prime_error rt tmpdir env0 heap0 stateRef event charm st m hst hrun hd hprime]
        exact ⟨rfl, rfl⟩
      | ok store0 =>
        rw [exec_eq_reached rt tmpdir env0 heap0 stateRef event charm st store0 hst hrun hd hprime]
        cases ho : (charm st store0).outcome with
        | noObserver => simp [ho]
        | raises e => simp [ho]
        | success =>
          simp only [ho]
          cases hcs : closeStorage (charm st store0).state (charm st store0).store with
          | error m => simp [hcs]
          | ok out => simp [hcs]

/-- Claim C7 (amended): a caller-supplied root is never deleted on any exit
path; a private temporary root is created and its explicit cleanup runs on
normal return, but when the charm invocation raises (`UncaughtCharmError`
path) the exception propagates past the context manager's post-yield
cleanup, so the temporary root is not deleted by `exec` (only reclaimed
later by garbage-collection finalization). -/
theorem c7_temp_root_cleanup_on_success_only (rt : Runtime) (tmpdir : String)
    (env0 : Env) (heap0 : Heap) (stateRef : Nat) (event : Event) (charm : Charm)
    (st : State)
    (hst : heap0.get stateRef = some st) :
    (∀ cr, rt.charm_root = some cr →
      (rt.exec tmpdir env0 heap0 stateRef event charm).vrootCleaned = false ∧
      (rt.exec tmpdir env0 heap0 stateRef event charm).tempRootCreated = false) ∧
    (rt.charm_root = none → ∀ out,
      (rt.exec tmpdir env0 heap0 stateRef event charm).result = .ok out →
      (rt.exec tmpdir env0 heap0 stateRef event charm).tempRootCreated = true ∧
      (rt.exec tmpdir env0 heap0 stateRef event charm).vrootCleaned = true) ∧
    (rt.charm_root = none → ∀ e,
      (rt.exec tmpdir env0 heap0 stateRef event charm).result = .error (.uncaughtCharm e) →
      (rt.exec tmpdir env0 heap0 stateRef event charm).tempRootCreated = true ∧
      (rt.exec tmpdir env0 heap0 stateRef event charm).vrootCleaned = false) := by
  obtain ⟨hclean, hcreate⟩ := exec_cleanup_fields rt tmpdir env0 heap0 stateRef event charm st hst
  refine ⟨fun cr hroot => ⟨?_, ?_⟩, fun hroot out hres => ⟨?_, ?_⟩, fun hroot e hres => ⟨?_, ?_⟩⟩
  · rw [hclean]
    cases (rt.exec tmpdir env0 heap0 stateRef event charm).result <;> simp [hroot]
  · rw [hcreate]
    cases hres : (rt.exec tmpdir env0 heap0 stateRef event charm).result with
    | ok out => simp [hroot]
    | error err => cases err <;> simp [hroot]
  · rw [hcreate, hres]
    simp [hroot]
  · rw [hclean, hres]
    simp [hroot]
  · rw [hcreate, hres]
    simp [hroot]
  · rw [hclean, hres]

/-- Counterexample to claim C7 as stated: a dispatch with no custom root
whose charm raises creates a private temporary root, and `exec` exits with
`UncaughtCharmError` without the root's `cleanup()` having run. -/
theorem c7_counterexample_temp_root_left_on_raise :
    (rtReplicas.exec "/tmp/vroot3" [] ⟨[stReplicasBool]⟩ 0 eventStart charmBoom).tempRootCreated
      = true ∧
    (rtReplicas.exec "/tmp/vroot3" [] ⟨[stReplicasBool]⟩ 0 eventStart charmBoom).vrootCleaned
      = false ∧
    (rtReplicas.exec "/tmp/vroot3" [] ⟨[stReplicasBool]⟩ 0 eventStart charmBoom).result =
      .error (.uncaughtCharm "boom") := by
  exact ⟨rfl, rfl, rfl⟩

/-- Claim C8: for every (state, event) where the event name is a
relation-lifecycle event, `exec` raises the aggregated inconsistency error
unless the event carries a relation reference whose normalized endpoint
name is a prefix of the event name (with the consistency checks not
disabled). When the relation reference is missing entirely the check raises
internally and `run` converts that into a diagnostic, so the aggregated
error is raised in that case too. -/
theorem c8_relation_event_needs_matching_relation (rt : Runtime) (tmpdir : String)
    (env0 : Env) (heap0 : Heap) (stateRef : Nat) (event : Event) (charm : Charm)
    (st : State)
    (hst : heap0.get stateRef = some st)
    (hskip : envTruthy (envLookup env0 skipChecksKey) = false)
    (hrel : is_relation_event event.name = true)
    (hpf : ∀ rel, event.relation = some rel →
      pyStartswith event.name (normalize_name rel.endpoint) = false) :
    ∃ errs, (rt.exec tmpdir env0 heap0 stateRef event charm).result =
      .error (.inconsistent errs) := by
  have hne : allCheckDiags st event rt.charm_spec rt.juju_version ≠ [] :=
    allCheckDiags_ne_nil_of_event (check_event_diags_ne_nil hrel hpf)
  refine ⟨allCheckDiags st event rt.charm_spec rt.juju_version, ?_⟩
  simp [Runtime.exec, hst, hskip, run_error_of_diags_ne_nil hne]

/-- Claim C5: `ConsistencyChecker.run` executes all four checks on every
invocation and aggregates their diagnostics in order (no short-circuit); an
exception escaping a single check is converted into exactly one diagnostic
for that check instead of propagating; a single aggregated
`InconsistentScenarioError` carrying all collected diagnostics is raised iff
at least one diagnostic was produced; the global opt-out flag disables
checking entirely. -/
theorem c5_checker_runs_all_checks (skip : Bool) (state : State) (event : Event)
    (spec : CharmSpec) (jv : String) :
    (skip = true → ConsistencyChecker.run skip state event spec jv = .ok ()) ∧
    (skip = false →
      (allCheckDiags state event spec jv = [] →
        ConsistencyChecker.run skip state event spec jv = .ok ()) ∧
      (allCheckDiags state event spec jv ≠ [] →
        ConsistencyChecker.run skip state event spec jv = .error (allCheckDiags state event spec jv))) ∧
    (∀ name e, diagsOf name (Except.error e) = [unexpectedErrMsg name e]) := by
  refine ⟨fun hs => ?_, fun hs => ⟨fun hd => ?_, fun hd => ?_⟩, fun name e => rfl⟩
  · simp [ConsistencyChecker.run, hs]
  · simp [ConsistencyChecker.run, hs, runChecksLoop_eq, hd]
  · simp [ConsistencyChecker.run, hs, runChecksLoop_eq, hd]

theorem checkConfigLoop_ok_of_no_raise (opts : List (String × ConfigOption))
    (cfg : List (String × PyV))
    (hno : ∀ kv ∈ cfg, configKeyRaises opts kv.1 = false) (errs : List String) :
    checkConfigLoop opts errs cfg =
      .ok (errs ++ cfg.flatMap fun kv => perKeyDiags opts kv.1 kv.2) := by
  induction cfg generalizing errs with
  | nil => simp [checkConfigLoop]
  | cons kv rest ih =>
    obtain ⟨key, value⟩ := kv
    have hk := hno (key, value) (List.mem_cons_self _ _)
    have hrest : ∀ kv ∈ rest, configKeyRaises opts kv.1 = false :=
      fun kv h => hno kv (List.mem_cons_of_mem _ h)
    cases hl : lookupStr opts key with
    | none => simp [checkConfigLoop, hl, ih hrest, perKeyDiags]
    | some opt =>
      cases ht : opt.typ with
      | none => simp [checkConfigLoop, hl, ht, ih hrest, perKeyDiags, optStrFalsy]
      | some tname =>
        by_cases hemp : tname = ""
        · subst hemp
          simp [checkConfigLoop, hl, ht, ih hrest, perKeyDiags, optStrFalsy]
        · have hfal : optStrFalsy (some tname) = false := by simp [optStrFalsy, hemp]
          cases hc : converters tname with
          | none => exact absurd hk (by simp [configKeyRaises, hl, ht, hc, hfal])
          | some conv =>
            have hnc : conv ≠ Converter.cNotImplemented := by
              intro h
              subst h
              exact absurd hk (by simp [configKeyRaises, hl, ht, hc, hfal])
            cases hi : isinstConv conv value <;> cases conv <;>
              first
                | exact absurd rfl hnc
                | simp [checkConfigLoop, hl, ht, hfal, hc, ih hrest, perKeyDiags, hi]

/-- The full diagnostics list `_check_config` produces when no entry makes
it raise. -/
def configDiags (state : State) (spec : CharmSpec) : List String :=
  state.config.flatMap fun kv => perKeyDiags (specOptions spec) kv.1 kv.2

/-- Claim C9: when no declared type makes `isinstance` raise, the config check
reports a diagnostic for every key of `state.config` absent from the
declared schema, and for every present key whose runtime value fails the
`isinstance` test against the declared type; in particular, for
`config = \x7b"replicas": "3"\x7d` with `replicas` declared `integer`, `exec`
raises the aggregated inconsistency error whose single diagnostic names
`replicas` and the string-vs-integer mismatch. -/
theorem c9_config_check_reports_mismatches (state : State) (spec : CharmSpec)
    (hno : ∀ kv ∈ state.config, configKeyRaises (specOptions spec) kv.1 = false) :
    check_config state spec = .ok (configDiags state spec) ∧
    (∀ kv ∈ state.config, lookupStr (specOptions spec) kv.1 = none →
      missingKeyMsg kv.1 ∈ configDiags state spec) ∧
    (∀ kv ∈ state.config, ∀ opt tname conv,
      lookupStr (specOptions spec) kv.1 = some opt → opt.typ = some tname →
      converters tname = some conv → isinstConv conv kv.2 = false →
      typeMismatchMsg kv.1 conv kv.2 ∈ configDiags state spec) ∧
    (rtReplicas.exec "/tmp/vroot0" [] ⟨[stReplicas]⟩ 0 eventStart charmNop).result =
      .error (.inconsistent [typeMismatchMsg "replicas" Converter.cint (PyV.vstr "3")]) := by
  refine ⟨?_, fun kv hkv hl => ?_, fun kv hkv opt tname conv hl ht hc hi => ?_, ?_⟩
  · simpa [check_config, configDiags] using
      checkConfigLoop_ok_of_no_raise (specOptions spec) state.config hno []
  · exact List.mem_flatMap.mpr ⟨kv, hkv, by simp [perKeyDiags, hl]⟩
  · have hkr := hno kv hkv
    have hemp : tname ≠ "" := by
      intro h
      subst h
      simp [converters] at hc
    have hfal : optStrFalsy (some tname) = false := by simp [optStrFalsy, hemp]
    refine List.mem_flatMap.mpr ⟨kv, hkv, ?_⟩
    cases conv with
    | cNotImplemented =>
      exact absurd hkr (by simp [configKeyRaises, hl, ht, hc, hfal])
    | cstr => simp [perKeyDiags, hl, ht, hfal, hc, hi]
    | cint => simp [perKeyDiags, hl, ht, hfal, hc, hi]
    | cfloat => simp [perKeyDiags, hl, ht, hfal, hc, hi]
    | cbool => simp [perKeyDiags, hl, ht, hfal, hc, hi]
  · rfl

/-- Claim C10: a boolean config value silently satisfies an integer-typed
config option: the type test treats `bool` as `int`, so the check reports
no diagnostic, and at the public `exec` interface the boolean-valued
scenario that mirrors C9 passes the consistency check and the dispatch
succeeds. -/
theorem c10_bool_satisfies_integer_config (st : State) (spec : CharmSpec)
    (k : String) (b : Bool) (tname : String)
    (hcfg : st.config = [(k, PyV.vbool b)])
    (hopts : specOptions spec = [(k, ⟨some tname⟩)])
    (ht : tname = "integer" ∨ tname = "int") :
    check_config st spec = .ok [] ∧
    (rtReplicas.exec "/tmp/vroot1" [] ⟨[stReplicasBool]⟩ 0 eventStart charmNop).result =
      .ok stReplicasBool := by
  constructor
  · rcases ht with h | h <;> subst h <;>
      simp [check_config, hcfg, hopts, checkConfigLoop, lookupStr, optStrFalsy,
        converters, isinstConv, isinstInt]
  · rfl

/-! ### Round-trip lemmas (C1) -/

theorem eraseKey_of_not_mem {α : Type} {k : String} {l : List (String × α)}
    (h : k ∉ l.map Prod.fst) : eraseKey k l = l := by
  induction l with
  | nil => rfl
  | cons kv rest ih =>
    simp only [List.map_cons, List.mem_cons] at h
    push_neg at h
    simp [eraseKey, Ne.symm h.1, ih h.2]

theorem lookupStr_append_right {α : Type} {k : String} {l1 l2 : List (String × α)}
    (h : k ∉ l1.map Prod.fst) : lookupStr (l1 ++ l2) k = lookupStr l2 k := by
  induction l1 with
  | nil => rfl
  | cons kv rest ih =>
    simp only [List.map_cons, List.mem_cons] at h
    push_neg at h
    simp [lookupStr, Ne.symm h.1, ih h.2]

theorem primeDeferredEvents_eq (evts : List DeferredEvent) (store : Store)
    (hm : ∀ e ∈ evts, marshalable e.snapshot_data = true)
    (hdisj : ∀ e ∈ evts, e.handle_path ∉ store.snapshots.map Prod.fst)
    (hnd : (evts.map DeferredEvent.handle_path).Nodup) :
    primeDeferredEvents store evts =
      .ok { snapshots := store.snapshots ++ evts.map fun e => (e.handle_path, e.snapshot_data),
            notices := store.notices ++ evts.map fun e => (e.handle_path, e.owner, e.observer) } := by
  induction evts generalizing store with
  | nil => simp [primeDeferredEvents]
  | cons e rest ih =>
    have hme := hm e (List.mem_cons_self _ _)
    have hde := hdisj e (List.mem_cons_self _ _)
    simp only [List.map_cons, List.nodup_cons] at hnd
    have herase : eraseKey e.handle_path store.snapshots = store.snapshots :=
      eraseKey_of_not_mem hde
    have hstep := ih
      ((store.save_notice e.handle_path e.owner e.observer).save_snapshot
        e.handle_path e.snapshot_data)
      (fun x hx => hm x (List.mem_cons_of_mem _ hx))
      (fun x hx => by
        have h1 : x.handle_path ∉ store.snapshots.map Prod.fst :=
          hdisj x (List.mem_cons_of_mem _ hx)
        have h2 : x.handle_path ≠ e.handle_path := by
          intro heq
          exact hnd.1 (heq ▸ List.mem_map_of_mem DeferredEvent.handle_path hx)
        simp only [Store.save_snapshot, Store.save_notice, herase]
        simp [h1, h2])
      hnd.2
    simp only [primeDeferredEvents, hme, if_true, hstep]
    simp [Store.save_snapshot, Store.save_notice, herase]

theorem primeStoredState_eq (ssts : List StoredState) (store : Store)
    (hdisj : ∀ s ∈ ssts, s.handle_path ∉ store.snapshots.map Prod.fst)
    (hnd : (ssts.map StoredState.handle_path).Nodup) :
    primeStoredState store ssts =
      { snapshots := store.snapshots ++ ssts.map fun s => (s.handle_path, s.content),
        notices := store.notices } := by
  induction ssts generalizing store with
  | nil => simp [primeStoredState]
  | cons s rest ih =>
    have hds := hdisj s (List.mem_cons_self _ _)
    simp only [List.map_cons, List.nodup_cons] at hnd
    have herase : eraseKey s.handle_path store.snapshots = store.snapshots :=
      eraseKey_of_not_mem hds
    have hstep := ih (store.save_snapshot s.handle_path s.content)
      (fun x hx => by
        have h1 : x.handle_path ∉ store.snapshots.map Prod.fst :=
          hdisj x (List.mem_cons_of_mem _ hx)
        have h2 : x.handle_path ≠ s.handle_path := by
          intro heq
          exact hnd.1 (heq ▸ List.mem_map_of_mem StoredState.handle_path hx)
        simp only [Store.save_snapshot, herase]
        simp [h1, h2])
      hnd.2
    simp only [primeStoredState, hstep]
    simp [Store.save_snapshot, herase]

theorem filter_notices_nil {k : String} (l : List DeferredEvent)
    (h : k ∉ l.map DeferredEvent.handle_path) :
    (l.map fun e => (e.handle_path, e.owner, e.observer)).filter (fun t => t.1 = k) = [] := by
  induction l with
  | nil => rfl
  | cons e rest ih =>
    simp only [List.map_cons, List.mem_cons] at h
    push_neg at h
    simp [List.filter_cons, Ne.symm h.1, ih h.2]

theorem filter_notices_singleton {d : DeferredEvent} (l : List DeferredEvent)
    (hnd : (l.map DeferredEvent.handle_path).Nodup) (hd : d ∈ l) :
    (l.map fun e => (e.handle_path, e.owner, e.observer)).filter
        (fun t => t.1 = d.handle_path) =
      [(d.handle_path, d.owner, d.observer)] := by
  induction l with
  | nil => cases hd
  | cons e rest ih =>
    simp only [List.map_cons, List.nodup_cons] at hnd
    rcases List.mem_cons.mp hd with heq | hmem
    · subst heq
      simp [List.filter_cons, filter_notices_nil rest hnd.1]
    · have hne : e.handle_path ≠ d.handle_path := by
        intro heq
        exact hnd.1 (heq ▸ List.mem_map_of_mem DeferredEvent.handle_path hmem)
      simp [List.filter_cons, hne, ih hnd.2 hmem]

theorem lookupStr_stored {s : StoredState} (l : List StoredState)
    (hnd : (l.map StoredState.handle_path).Nodup) (hs : s ∈ l) :
    lookupStr (l.map fun x => (x.handle_path, x.content)) s.handle_path = some s.content := by
  induction l with
  | nil => cases hs
  | cons x rest ih =>
    simp only [List.map_cons, List.nodup_cons] at hnd
    rcases List.mem_cons.mp hs with heq | hmem
    · subst heq
      simp [lookupStr]
    · have hne : x.handle_path ≠ s.handle_path := by
        intro heq
        exact hnd.1 (heq ▸ List.mem_map_of_mem StoredState.handle_path hmem)
      simp [lookupStr, hne, ih hnd.2 hmem]

theorem drainLoop_append (store : Store) (ks1 ks2 : List String)
    (a : List DeferredEvent) (b : List StoredState) :
    drainLoop store (ks1 ++ ks2) a b =
      (drainLoop store ks1 a b).bind fun r => drainLoop store ks2 r.1 r.2 := by
  induction ks1 generalizing a b with
  | nil => simp [drainLoop, Except.bind]
  | cons h rest ih =>
    by_cases hev : eventRegexMatch h = true
    · simp only [List.cons_append, drainLoop, hev, if_true]
      exact ih _ _
    · simp only [List.cons_append, drainLoop, hev, if_false, Bool.false_eq_true]
      cases hl : store.load_snapshot h with
      | error m => simp [Except.bind, bind]
      | ok snap =>
        simp only [bind, Except.bind]
        cases sstMatch h with
        | none => exact ih _ _
        | some r =>
          obtain ⟨op, tn, nm⟩ := r
          exact ih _ _

theorem drain_deferred (store : Store) (evts : List DeferredEvent)
    (a : List DeferredEvent) (b : List StoredState)
    (hev : ∀ e ∈ evts, eventRegexMatch e.handle_path = true)
    (hnot : ∀ e ∈ evts, store.noticesFor e.handle_path =
      [(e.handle_path, e.owner, e.observer)]) :
    drainLoop store (evts.map DeferredEvent.handle_path) a b =
      .ok (a ++ evts.map resetSnap, b) := by
  induction evts generalizing a with
  | nil => simp [drainLoop]
  | cons e rest ih =>
    have he := hev e (List.mem_cons_self _ _)
    have hn := hnot e (List.mem_cons_self _ _)
    simp only [List.map_cons, drainLoop, he, if_true, hn, List.map_cons, List.map_nil]
    rw [ih _ (fun x hx => hev x (List.mem_cons_of_mem _ hx))
      (fun x hx => hnot x (List.mem_cons_of_mem _ hx))]
    simp [resetSnap]

theorem drain_stored (store : Store) (ssts : List StoredState)
    (a : List DeferredEvent) (b : List StoredState)
    (hev : ∀ s ∈ ssts, eventRegexMatch s.handle_path = false)
    (hload : ∀ s ∈ ssts, store.load_snapshot s.handle_path = .ok s.content)
    (hsst : ∀ s ∈ ssts, sstMatch s.handle_path =
      some (s.owner_path, s.data_type_name, s.name)) :
    drainLoop store (ssts.map StoredState.handle_path) a b = .ok (a, b ++ ssts) := by
  induction ssts generalizing b with
  | nil => simp [drainLoop]
  | cons s rest ih =>
    have he := hev s (List.mem_cons_self _ _)
    have hl := hload s (List.mem_cons_self _ _)
    have hm := hsst s (List.mem_cons_self _ _)
    simp only [List.map_cons, drainLoop, he, Bool.false_eq_true, if_false, bind,
      Except.bind, hl, hm]
    rw [ih _ (fun x hx => hev x (List.mem_cons_of_mem _ hx))
      (fun x hx => hload x (List.mem_cons_of_mem _ hx))
      (fun x hx => hsst x (List.mem_cons_of_mem _ hx))]
    simp

/-- Claim C1 (amended): priming a fresh store from a state with N deferred
events and M stored-state entries and draining it without charm mutation
yields a state whose deferred list again has the same N events — with
handle path, owner and observer intact but each snapshot payload reset to
the default empty mapping, since the drain reconstructs a deferred event
from its notice triple alone — and whose stored-state list is exactly the
M input entries, content included. Hypotheses: payloads marshal, deferred
handle paths match the event-notice pattern, stored-state handle paths do
not and parse back to their own components, and all handle paths are
distinct. -/
theorem c1_roundtrip_amended (st : State)
    (hm : ∀ e ∈ st.deferred, marshalable e.snapshot_data = true)
    (hev : ∀ e ∈ st.deferred, eventRegexMatch e.handle_path = true)
    (hsev : ∀ s ∈ st.stored_state, eventRegexMatch s.handle_path = false)
    (hsst : ∀ s ∈ st.stored_state, sstMatch s.handle_path =
      some (s.owner_path, s.data_type_name, s.name))
    (hnd : (st.deferred.map DeferredEvent.handle_path ++
      st.stored_state.map StoredState.handle_path).Nodup) :
    roundTripState st = .ok (st.replace (st.deferred.map resetSnap) st.stored_state) := by
  obtain ⟨hnd1, hnd2, hdisj⟩ := List.nodup_append.mp hnd
  have hdisj2 : ∀ s ∈ st.stored_state,
      s.handle_path ∉ st.deferred.map DeferredEvent.handle_path := by
    intro s hs hmem
    exact hdisj hmem (List.mem_map_of_mem StoredState.handle_path hs)
  have hp1 : primeDeferredEvents ⟨[], []⟩ st.deferred =
      .ok ⟨st.deferred.map fun e => (e.handle_path, e.snapshot_data),
           st.deferred.map fun e => (e.handle_path, e.owner, e.observer)⟩ := by
    simpa using primeDeferredEvents_eq st.deferred ⟨[], []⟩ hm (by simp) hnd1
  have hp2 : primeStoredState
      ⟨st.deferred.map fun e => (e.handle_path, e.snapshot_data),
       st.deferred.map fun e => (e.handle_path, e.owner, e.observer)⟩ st.stored_state =
      ⟨(st.deferred.map fun e => (e.handle_path, e.snapshot_data)) ++
        (st.stored_state.map fun s => (s.handle_path, s.content)),
       st.deferred.map fun e => (e.handle_path, e.owner, e.observer)⟩ := by
    exact primeStoredState_eq st.stored_state _
      (by
        intro s hs
        simpa [List.map_map, Function.comp] using hdisj2 s hs)
      hnd2
  have hps : primeStore st = .ok
      ⟨(st.deferred.map fun e => (e.handle_path, e.snapshot_data)) ++
        (st.stored_state.map fun s => (s.handle_path, s.content)),
       st.deferred.map fun e => (e.handle_path, e.owner, e.observer)⟩ := by
    simp only [primeStore, bind, Except.bind, Store.empty, hp1, hp2, pure, Except.pure]
  have hkeys : (Store.mk
      ((st.deferred.map fun e => (e.handle_path, e.snapshot_data)) ++
        (st.stored_state.map fun s => (s.handle_path, s.content)))
      (st.deferred.map fun e => (e.handle_path, e.owner, e.observer))).list_snapshots =
      st.deferred.map DeferredEvent.handle_path ++
        st.stored_state.map StoredState.handle_path := by
    simp only [Store.list_snapshots, List.map_append, List.map_map]
    rfl
  simp only [roundTripState, bind, Except.bind, hps, closeStorage, hkeys]
  rw [drainLoop_append]
  rw [drain_deferred _ _ _ _ hev (by
    intro e he
    simpa [Store.noticesFor] using filter_notices_singleton st.deferred hnd1 he)]
  simp only [Except.bind, List.nil_append]
  rw [drain_stored _ _ _ _ hsev (by
    intro s hs
    have hnk : s.handle_path ∉
        (st.deferred.map fun e => (e.handle_path, e.snapshot_data)).map Prod.fst := by
      simpa [List.map_map, Function.comp] using hdisj2 s hs
    simp only [Store.load_snapshot, lookupStr_append_right hnk,
      lookupStr_stored st.stored_state hnd2 hs]) hsst]
  simp [State.replace, pure, Except.pure]

/-- Counterexample to claim C1 as stated: for a state with one deferred
event whose snapshot payload is a non-empty mapping, priming and draining
yields a deferred event with the same notice triple but an empty payload,
so the output entry's content is not identical to the input entry's. -/
theorem c1_counterexample_snapshot_payload_lost :
    (roundTripState stC1x).map (fun s => s.deferred.map DeferredEvent.snapshot_data) =
      .ok [PyV.vdict []] ∧
    stC1x.deferred.map DeferredEvent.snapshot_data = [PyV.vdict [("foo", PyV.vint 1)]] ∧
    PyV.vdict [] ≠ PyV.vdict [("foo", PyV.vint 1)] := by
  refine ⟨rfl, rfl, by simp⟩

/-! ### Witnesses -/

theorem c1_roundtrip_amended_witness :
    roundTripState stC1w =
      .ok (stC1w.replace (stC1w.deferred.map resetSnap) stC1w.stored_state) :=
  c1_roundtrip_amended stC1w
    (by intro e he; simp only [stC1w, List.mem_singleton] at he; subst he; rfl)
    (by intro e he; simp only [stC1w, List.mem_singleton] at he; subst he; rfl)
    (by intro s hs; simp only [stC1w, List.mem_singleton] at hs; subst hs; rfl)
    (by intro s hs; simp only [stC1w, List.mem_singleton] at hs; subst hs; rfl)
    (by decide)

theorem c2_env_cleanup_witness :
    envLookup (rtReplicas.exec "/tmp/w2" [] ⟨[stReplicasBool]⟩ 0 eventStart charmNop).env
      "JUJU_VERSION" = none :=
  (c2_env_cleanup_on_success_only rtReplicas "/tmp/w2" [] ⟨[stReplicasBool]⟩ 0 eventStart
    charmNop stReplicasBool ⟨[], []⟩ rfl rfl rfl rfl).1 rfl "JUJU_VERSION" (by decide)

theorem c3_exec_never_mutates_input_witness :
    (rtReplicas.exec "/tmp/w3" [] ⟨[stReplicasBool]⟩ 0 eventStart charmNop).heap.get 0 =
      some stReplicasBool ∧
    ((∃ out, (rtReplicas.exec "/tmp/w3" [] ⟨[stReplicasBool]⟩ 0 eventStart charmNop).result =
        .ok out) ∨
      (∃ e, (rtReplicas.exec "/tmp/w3" [] ⟨[stReplicasBool]⟩ 0 eventStart charmNop).result =
        .error e)) :=
  c3_exec_never_mutates_input rtReplicas "/tmp/w3" [] ⟨[stReplicasBool]⟩ 0 eventStart
    charmNop stReplicasBool rfl

theorem c4_error_propagation_witness :
    (rtReplicas.exec "/tmp/w4" [] ⟨[stReplicasBool]⟩ 0 eventStart charmBoom).result =
      .error (.uncaughtCharm "boom") :=
  (c4_error_propagation rtReplicas "/tmp/w4" [] ⟨[stReplicasBool]⟩ 0 eventStart charmBoom
    stReplicasBool ⟨[], []⟩ rfl rfl rfl rfl).2 "boom" rfl

theorem c5_checker_witness :
    ConsistencyChecker.run true stReplicas eventStart specReplicas "3.0.0" = .ok () ∧
    ConsistencyChecker.run false stReplicas eventStart specReplicas "3.0.0" =
      .error (allCheckDiags stReplicas eventStart specReplicas "3.0.0") :=
  ⟨(c5_checker_runs_all_checks true stReplicas eventStart specReplicas "3.0.0").1 rfl,
   ((c5_checker_runs_all_checks false stReplicas eventStart specReplicas "3.0.0").2.1
      rfl).2 (by decide)⟩

theorem c6_dirty_root_witness :
    (rtCustomDirty.exec "/tmp/w6" [] ⟨[stReplicasBool]⟩ 0 eventStart charmNop).result =
      .error .dirtyVirtualCharmRoot ∧
    (rtCustomAuto.exec "/tmp/w6" [] ⟨[stReplicasBool]⟩ 0 eventStart charmNop).result ≠
      .error .dirtyVirtualCharmRoot :=
  ⟨((c6_dirty_root_aborts_before_side_effects rtCustomDirty "/tmp/w6" [] ⟨[stReplicasBool]⟩
      0 eventStart charmNop stReplicasBool crPre rfl rfl rfl).1 rfl rfl).1,
   ((c6_dirty_root_aborts_before_side_effects rtCustomAuto "/tmp/w6" [] ⟨[stReplicasBool]⟩
      0 eventStart charmNop stReplicasBool crPre rfl rfl rfl).2 rfl).1⟩

theorem c7_temp_root_cleanup_witness :
    (rtReplicas.exec "/tmp/w7" [] ⟨[stReplicasBool]⟩ 0 eventStart charmNop).tempRootCreated
      = true ∧
    (rtReplicas.exec "/tmp/w7" [] ⟨[stReplicasBool]⟩ 0 eventStart charmNop).vrootCleaned
      = true :=
  (c7_temp_root_cleanup_on_success_only rtReplicas "/tmp/w7" [] ⟨[stReplicasBool]⟩ 0
    eventStart charmNop stReplicasBool rfl).2.1 rfl stReplicasBool rfl

theorem c8_relation_event_witness :
    ∃ errs, (rtReplicas.exec "/tmp/w8" [] ⟨[stReplicasBool]⟩ 0 eventRelBad charmNop).result =
      .error (.inconsistent errs) :=
  c8_relation_event_needs_matching_relation rtReplicas "/tmp/w8" [] ⟨[stReplicasBool]⟩ 0
    eventRelBad charmNop stReplicasBool rfl rfl rfl
    (by intro rel h; simp only [eventRelBad] at h; cases h)

theorem c9_config_check_witness :
    (rtReplicas.exec "/tmp/vroot0" [] ⟨[stReplicas]⟩ 0 eventStart charmNop).result =
      .error (.inconsistent [typeMismatchMsg "replicas" Converter.cint (PyV.vstr "3")]) :=
  (c9_config_check_reports_mismatches stReplicas specReplicas
    (by intro kv hkv; simp only [stReplicas, List.mem_singleton] at hkv; subst hkv; rfl)).2.2.2

theorem c10_bool_config_witness :
    check_config stReplicasBool specReplicas = .ok [] ∧
    (rtReplicas.exec "/tmp/vroot1" [] ⟨[stReplicasBool]⟩ 0 eventStart charmNop).result =
      .ok stReplicasBool :=
  c10_bool_satisfies_integer_config stReplicasBool specReplicas "replicas" true "integer"
    rfl rfl (Or.inl rfl)

end Scenario
